import Mathlib

/-!
Verification of the X11 cursor-management core
(`src/platform_impl/linux/x11/util/cursor.rs` of winit).

Every definition below is a shallow embedding of a function or type of
that file; remote X11 interactions (resource-id generation, request
submission, reply checking, flushing) are modelled by explicit oracle
parameters of `Except`/`Option` type, and the observable protocol
effects (allocations, frees, lookups) by explicit event traces.
-/

/-! ## Pixel-format resolver (`XConnection::find_argb32_format`, lines 84-104) -/

/-- Channel descriptors of an XRender direct format (`render::Directformat`). -/
structure Directformat where
  red_shift : Nat
  red_mask : Nat
  green_shift : Nat
  green_mask : Nat
  blue_shift : Nat
  blue_mask : Nat
  alpha_shift : Nat
  alpha_mask : Nat
deriving DecidableEq, Repr

/-- XRender picture type (`render::PictType`): `DIRECT` or `INDEXED`. -/
inductive PictType where
  | direct
  | indexed
deriving DecidableEq, Repr

/-- An advertised XRender picture format (`render::Pictforminfo`). -/
structure Pictformat where
  id : Nat
  type_ : PictType
  depth : Nat
  direct : Directformat
deriving DecidableEq, Repr

/-- The predicate of the `find` closure in `find_argb32_format` (lines 94-101):
`type_ == DIRECT && depth == 32` and each channel at the fixed ARGB32
shift with mask `0xff` (the `direct!` macro, line 85-89). -/
def matchesArgb32 (f : Pictformat) : Bool :=
  f.type_ == PictType.direct && f.depth == 32
    && (f.direct.red_shift == 16 && f.direct.red_mask == 0xff)
    && (f.direct.green_shift == 8 && f.direct.green_mask == 0xff)
    && (f.direct.blue_shift == 0 && f.direct.blue_mask == 0xff)
    && (f.direct.alpha_shift == 24 && f.direct.alpha_mask == 0xff)

/-- `XConnection::find_argb32_format`: linear scan of the advertised formats,
returning the id of the first match.  The `.expect(...)` panic on a missing
format is modelled as `none`. -/
def find_argb32_format (formats : List Pictformat) : Option Nat :=
  (formats.find? matchesArgb32).map Pictformat.id

/-! ## RGBA→BGRA transform and `CustomCursor::new` (lines 177-201) -/

/-- The in-place transform `cursor.0.rgba.chunks_mut(4).for_each(|chunk| chunk[0..3].reverse())`
(lines 183-185).  `chunks_mut(4)` yields 4-byte chunks with a possibly
shorter final chunk; `chunk[0..3].reverse()` reverses the first three bytes,
and panics (out-of-bounds slice) when the final chunk has fewer than 3
bytes.  The panic is modelled as `none`. -/
def bgraTransform : List Nat → Option (List Nat)
  | [] => some []
  | [_] => none
  | [_, _] => none
  | [r, g, b] => some [b, g, r]
  | r :: g :: b :: a :: rest => (bgraTransform rest).map fun t => b :: g :: r :: a :: t

/-- The data of a `PlatformCustomCursorSource` image: raw `rgba` bytes plus
dimensions and hotspot, as read by `CustomCursor::new` (lines 189-195). -/
structure CursorImage where
  rgba : List Nat
  width : Nat
  height : Nat
  hotspot_x : Nat
  hotspot_y : Nat
deriving DecidableEq, Repr

/-- The argument tuple that `CustomCursor::new` passes to
`create_cursor_from_image` (lines 189-196). -/
structure BuilderArgs where
  width : Nat
  height : Nat
  depth : Nat
  hotspot_x : Nat
  hotspot_y : Nat
  image : List Nat
deriving DecidableEq, Repr

/-- `CustomCursor::new` up to the remote call: applies the RGBA→BGRA chunk
transform, then invokes the image-backed builder with depth 32 and the
transformed buffer.  `none` means the transform panicked, so the builder is
never invoked and no remote request is issued. -/
def customCursorNew (c : CursorImage) : Option BuilderArgs :=
  (bgraTransform c.rgba).map fun buf =>
    ⟨c.width, c.height, 32, c.hotspot_x, c.hotspot_y, buf⟩

/-- A pixel list in source RGBA byte order, flattened (4 bytes per pixel). -/
def flattenRGBA : List (Nat × Nat × Nat × Nat) → List Nat
  | [] => []
  | (r, g, b, a) :: ps => r :: g :: b :: a :: flattenRGBA ps

/-- The same pixels in BGRA byte order, flattened. -/
def flattenBGRA : List (Nat × Nat × Nat × Nat) → List Nat
  | [] => []
  | (r, g, b, a) :: ps => b :: g :: r :: a :: flattenBGRA ps

/-! ## Image-backed cursor builder (`XConnection::create_cursor_from_image`, lines 32-81)

The builder drives a four-stage remote allocation pipeline; each fallible
operation (id generation, request send, reply check) is given its outcome by
a `Scenario` oracle (`none` = success, `some e` = failure with error code
`e`).  The function returns the trace of observable protocol effects
(resource allocations and frees, with an `err` marker at the failure point)
together with the result.  `CallOnDrop` guards (lines 45-47, 52-54, 69-71)
and the explicit `drop(gc_guard)` / `drop(pixmap_guard)` calls (lines 62,
72) are reflected directly in where `free` events appear. -/

/-- The four remote resource kinds of the pipeline. -/
inductive Res where
  | pixmap
  | gc
  | picture
  | cursor
deriving DecidableEq, Repr, Fintype

/-- Observable protocol effects of the builder: a successful allocation of a
resource, a free request for a resource, and the point at which a failing
operation returned its error. -/
inductive Ev where
  | alloc (r : Res)
  | free (r : Res)
  | err
deriving DecidableEq, Repr

/-- Outcomes of the eleven fallible operations of
`create_cursor_from_image`, in program order (`none` = success). -/
structure Scenario where
  genPixmap : Option Nat
  createPixmap : Option Nat
  genGc : Option Nat
  createGc : Option Nat
  putImage : Option Nat
  genPicture : Option Nat
  createPicture : Option Nat
  checkPicture : Option Nat
  genCursor : Option Nat
  createCursor : Option Nat
  checkCursor : Option Nat
deriving DecidableEq, Repr

/-- `XConnection::create_cursor_from_image` as a trace semantics.  Traces per
branch follow the Rust control flow exactly:
* a failing `generate_id()?` or request-send `?` before any guard releases
  nothing (lines 43-44: the pixmap guard is installed only after
  `create_pixmap` was sent);
* Rust drops live `CallOnDrop` guards in reverse declaration order on every
  early return;
* `drop(gc_guard)` frees the gc right after the upload (line 62), and
  `drop(pixmap_guard)` frees the pixmap right after the picture reply
  checked out (line 72), on the success path as well;
* the picture guard (line 69) is installed only after `.check()?` of
  `render_create_picture` succeeded, and fires both on a stage-4 failure
  and at normal scope exit. -/
def create_cursor_from_image (s : Scenario) : List Ev × Except Nat Unit :=
  match s.genPixmap with
  | some e => ([.err], .error e)
  | none =>
  match s.createPixmap with
  | some e => ([.err], .error e)
  | none =>
  match s.genGc with
  | some e => ([.alloc .pixmap, .err, .free .pixmap], .error e)
  | none =>
  match s.createGc with
  | some e => ([.alloc .pixmap, .err, .free .pixmap], .error e)
  | none =>
  match s.putImage with
  | some e => ([.alloc .pixmap, .alloc .gc, .err, .free .gc, .free .pixmap], .error e)
  | none =>
  match s.genPicture with
  | some e => ([.alloc .pixmap, .alloc .gc, .free .gc, .err, .free .pixmap], .error e)
  | none =>
  match s.createPicture with
  | some e => ([.alloc .pixmap, .alloc .gc, .free .gc, .err, .free .pixmap], .error e)
  | none =>
  match s.checkPicture with
  | some e => ([.alloc .pixmap, .alloc .gc, .free .gc, .err, .free .pixmap], .error e)
  | none =>
  match s.genCursor with
  | some e =>
      ([.alloc .pixmap, .alloc .gc, .free .gc, .alloc .picture, .free .pixmap,
        .err, .free .picture], .error e)
  | none =>
  match s.createCursor with
  | some e =>
      ([.alloc .pixmap, .alloc .gc, .free .gc, .alloc .picture, .free .pixmap,
        .err, .free .picture], .error e)
  | none =>
  match s.checkCursor with
  | some e =>
      ([.alloc .pixmap, .alloc .gc, .free .gc, .alloc .picture, .free .pixmap,
        .err, .free .picture], .error e)
  | none =>
      ([.alloc .pixmap, .alloc .gc, .free .gc, .alloc .picture, .free .pixmap,
        .alloc .cursor, .free .picture], .ok ())

/-- Resources allocated in a trace, in allocation order. -/
def allocsOf (t : List Ev) : List Res :=
  t.filterMap fun e => match e with | .alloc r => some r | _ => none

/-- Resources freed by the rollback, i.e. freed at or after the point where
the failing operation returned (the frees fired by the still-armed
`CallOnDrop` guards during the early return). -/
def rollbackOf (t : List Ev) : List Res :=
  (t.dropWhile fun e => e != Ev.err).filterMap
    fun e => match e with | .free r => some r | _ => none

/-- `true` iff the builder run ended in an error. -/
def runFailed (s : Scenario) : Bool :=
  match (create_cursor_from_image s).2 with
  | .ok _ => false
  | .error _ => true

/-- All operations up to and including the picture-reply check succeed
except that the picture-reply check itself fails: stage 3 (picture
creation) is the failing stage. -/
def stage3Fails (s : Scenario) : Prop :=
  s.genPixmap = none ∧ s.createPixmap = none ∧ s.genGc = none ∧ s.createGc = none ∧
  s.putImage = none ∧ s.genPicture = none ∧ s.createPicture = none ∧
  s.checkPicture.isSome = true

/-- All operations succeed except the cursor-reply check: stage 4 (cursor
creation) is the failing stage. -/
def stage4Fails (s : Scenario) : Prop :=
  s.genPixmap = none ∧ s.createPixmap = none ∧ s.genGc = none ∧ s.createGc = none ∧
  s.putImage = none ∧ s.genPicture = none ∧ s.createPicture = none ∧
  s.checkPicture = none ∧ s.genCursor = none ∧ s.createCursor = none ∧
  s.checkCursor.isSome = true

/-! ## Custom-cursor handle lifecycle (`CustomCursor`, `CustomCursorInner`, lines 158-213)

`CustomCursor` wraps `Arc<CustomCursorInner>`; `Clone` bumps the strong
count, dropping a reference decrements it, and when the count reaches zero
`CustomCursorInner::drop` (lines 209-213) runs once, issuing a single
`free_cursor` request whose outcome is discarded by
`.map(|r| r.ignore_error()).ok()`.  We model the reference-count dynamics
explicitly: a state carries the number of live references and the number of
free requests issued so far; `freeResults` oracles the outcome of the
n-th free request, and the discarded outcome is bound and dropped exactly
as the Rust drop handler does. -/

/-- One event in the life of a shared `CustomCursor`: cloning a reference
(`#[derive(Clone)]` via `Arc::clone`) or dropping one. -/
inductive ArcOp where
  | clone
  | drop
deriving DecidableEq, Repr

/-- Live strong-reference count plus number of `free_cursor` requests
issued so far. -/
structure ArcSt where
  refs : Nat
  frees : Nat
deriving DecidableEq, Repr

/-- One step of the shared-handle dynamics.  Dropping the last reference
runs `CustomCursorInner::drop`: the `free_cursor` outcome is bound and then
discarded (`.map(|r| r.ignore_error()).ok();`), and the free counter is
bumped. -/
def arcStep (freeResults : Nat → Except Nat Unit) (s : ArcSt) : ArcOp → ArcSt
  | .clone => ⟨s.refs + 1, s.frees⟩
  | .drop =>
      if s.refs = 1 then
        let _discarded : Option Unit := ((freeResults s.frees).map fun r => r).toOption
        ⟨0, s.frees + 1⟩
      else ⟨s.refs - 1, s.frees⟩

/-- Run a sequence of clone/drop events from a state. -/
def arcRun (freeResults : Nat → Except Nat Unit) (s : ArcSt) : List ArcOp → ArcSt
  | [] => s
  | op :: ops => arcRun freeResults (arcStep freeResults s op) ops

/-- Rust ownership makes an event sequence well-formed only when every
clone or drop acts on a live reference: starting from `live` references,
each event requires `live > 0`, a clone adds a reference and a drop removes
one. -/
def validFrom : Nat → List ArcOp → Bool
  | _, [] => true
  | live, .clone :: ops => live > 0 && validFrom (live + 1) ops
  | live, .drop :: ops => live > 0 && validFrom (live - 1) ops

/-! ## Cursor cache (`XConnection::set_cursor_icon`, lines 16-25)

`set_cursor_icon` resolves an `Option<CursorIcon>` selector through
`cursor_cache: Mutex<HashMap<Option<CursorIcon>, Cursor>>` with
`.entry(cursor).or_insert_with(|| self.get_cursor(cursor).expect(...))`.
The cache is modelled as an association list, the builder `get_cursor` as
an oracle, the `expect` panic as an `Except.error` carried out of the
resolution (the `HashMap` inserts nothing when the `or_insert_with` closure
panics).  The returned `Bool` records whether `get_cursor` was invoked. -/

/-- Association-list lookup keyed by the optional selector. -/
def lookupSel {Icon : Type} [DecidableEq Icon] :
    List (Option Icon × Nat) → Option Icon → Option Nat
  | [], _ => none
  | (k, v) :: rest, s => if k = s then some v else lookupSel rest s

/-- The cache resolution step of `set_cursor_icon` (lines 17-22):
`entry(sel).or_insert_with(|| get_cursor(sel).expect(...))`.  Returns the
cache afterwards and either the resolved handle together with the flag
"`get_cursor` was invoked", or the panic (cache untouched: `or_insert_with`
inserts only after its closure returned). -/
def set_cursor_icon_resolve {Icon : Type} [DecidableEq Icon]
    (getC : Option Icon → Except Nat Nat)
    (cache : List (Option Icon × Nat)) (sel : Option Icon) :
    List (Option Icon × Nat) × Except Nat (Nat × Bool) :=
  match lookupSel cache sel with
  | some c => (cache, .ok (c, false))
  | none =>
      match getC sel with
      | .ok c => ((sel, c) :: cache, .ok (c, true))
      | .error e => (cache, .error e)

/-- Selectors on which `get_cursor` is invoked while serving a sequence of
`set_cursor_icon` calls from a given cache, in call order.  A failed
resolution panics (`expect`), ending the cache's lifetime, so nothing runs
after it. -/
def resolveSeq {Icon : Type} [DecidableEq Icon]
    (getC : Option Icon → Except Nat Nat) :
    List (Option Icon × Nat) → List (Option Icon) → List (Option Icon)
  | _, [] => []
  | cache, s :: rest =>
      match set_cursor_icon_resolve getC cache s with
      | (cache2, .ok (_, true)) => s :: resolveSeq getC cache2 rest
      | (cache2, .ok (_, false)) => resolveSeq getC cache2 rest
      | (_, .error _) => [s]

/-! ## Named-cursor resolver (`XConnection::get_cursor`, lines 110-133)

`get_cursor(None)` delegates to `create_empty_cursor` (lines 106-108),
which calls the builder with a 1×1, depth-32, all-zero image and hotspot
(0,0); no theme handle is built and no name lookup happens.
`get_cursor(Some(icon))` builds a theme handle, then loops over
`iter::once(&cursor.name()).chain(cursor.alt_names().iter())`, returning
the first successful `load_cursor` and otherwise the last error. -/

/-- The lookup loop of `get_cursor` (lines 124-132), instrumented with the
list of names attempted in order: try `load_cursor` on the head name; on
success return immediately, otherwise remember the error and continue with
the remaining names; when no name is left, fail with the remembered (last)
error. -/
def tryNamesT (lookup : String → Except Nat Nat) :
    String → List String → List String × Except Nat Nat
  | n, alts =>
      match lookup n with
      | .ok c => ([n], .ok c)
      | .error e =>
          match alts with
          | [] => ([n], .error e)
          | n2 :: rest =>
              let (att, r) := tryNamesT lookup n2 rest
              (n :: att, r)

/-- Observable effects of `get_cursor`: a theme lookup of one candidate
name (`handle.load_cursor(..., name)`), or an invocation of the
image-backed builder with its argument tuple. -/
inductive GEv where
  | themeLookup (name : String)
  | builderCall (args : BuilderArgs)
deriving DecidableEq, Repr

/-- `XConnection::get_cursor`, with the selector reduced to what the code
reads from it — `none`, or `some (canonical name, alternate names)` — and
with oracles for the theme-handle construction (`Handle::new(..).reply()`,
lines 117-122), the per-name lookup, and the outcome of the builder used by
the empty-cursor path.  Returns the effect trace and the result. -/
def get_cursor (handleNew : Except Nat Unit) (lookup : String → Except Nat Nat)
    (builder : Except Nat Nat) :
    Option (String × List String) → List GEv × Except Nat Nat
  | none => ([GEv.builderCall ⟨1, 1, 32, 0, 0, [0, 0, 0, 0]⟩], builder)
  | some (name, alts) =>
      match handleNew with
      | .error e => ([], .error e)
      | .ok _ =>
          let (att, r) := tryNamesT lookup name alts
          (att.map GEv.themeLookup, r)

/-- `true` iff a name's lookup succeeds; the loop guard of lines 126-129. -/
def lookupOk (lookup : String → Except Nat Nat) (n : String) : Bool :=
  match lookup n with
  | .ok _ => true
  | .error _ => false

/-! ## Cursor applicator (`XConnection::update_cursor`, lines 135-149)

`change_window_attributes(...)?` propagates a send failure, its cookie's
potential error reply is discarded by `.ignore_error()`, then `flush()?`
propagates a flush failure; otherwise `Ok(())`. -/

/-- `XConnection::update_cursor`, with the three remote outcomes as
oracles: the send result of the attribute-change request, the error reply
(if any) that its cookie would report, and the flush result.  The reply is
bound and discarded, exactly as `.ignore_error()` does. -/
def update_cursor (sendAttr : Except Nat Unit) (attrReply : Option Nat)
    (flushR : Except Nat Unit) : Except Nat Unit :=
  match sendAttr with
  | .error e => .error e
  | .ok _ =>
      let _ignored : Option Nat := attrReply
      match flushR with
      | .error e => .error e
      | .ok _ => .ok ()

/-! ## Concrete inputs used by the witnesses -/

/-- An advertised format satisfying every ARGB32 condition. -/
def argbFmt : Pictformat :=
  ⟨5, PictType.direct, 32, ⟨16, 0xff, 8, 0xff, 0, 0xff, 24, 0xff⟩⟩

/-- Failure scenario: only the picture-reply check (stage 3) fails. -/
def stage3Scenario : Scenario :=
  ⟨none, none, none, none, none, none, none, some 5, none, none, none⟩

/-- Failure scenario: only the cursor-reply check (stage 4) fails. -/
def stage4Scenario : Scenario :=
  ⟨none, none, none, none, none, none, none, none, none, none, some 7⟩

/-- Reference history: construct, clone twice, drop all three. -/
def exampleOps : List ArcOp :=
  [ArcOp.clone, ArcOp.clone, ArcOp.drop, ArcOp.drop, ArcOp.drop]

/-- A theme in which every candidate name fails to load. -/
def allFailLookup : String → Except Nat Nat := fun _ => Except.error 7

/-! ## Helper lemmas -/

/-- `matchesArgb32` holds exactly for direct-color, depth-32 formats with
the fixed ARGB32 shifts and all-0xff masks. -/
theorem matchesArgb32_iff (f : Pictformat) :
    matchesArgb32 f = true ↔
      (f.type_ = PictType.direct ∧ f.depth = 32 ∧
       f.direct.red_shift = 16 ∧ f.direct.red_mask = 0xff ∧
       f.direct.green_shift = 8 ∧ f.direct.green_mask = 0xff ∧
       f.direct.blue_shift = 0 ∧ f.direct.blue_mask = 0xff ∧
       f.direct.alpha_shift = 24 ∧ f.direct.alpha_mask = 0xff) := by
  simp only [matchesArgb32, Bool.and_eq_true, beq_iff_eq]
  tauto

/-- The BGRA chunk transform succeeds on a whole-pixel buffer and swaps the
first and third byte of every pixel. -/
theorem bgraTransform_flatten (ps : List (Nat × Nat × Nat × Nat)) :
    bgraTransform (flattenRGBA ps) = some (flattenBGRA ps) := by
  induction ps with
  | nil => rfl
  | cons p ps ih =>
      obtain ⟨r, g, b, a⟩ := p
      simp [flattenRGBA, flattenBGRA, bgraTransform, ih]

/-- The BGRA chunk transform panics exactly when the trailing chunk has one
or two bytes. -/
theorem bgraTransform_eq_none_iff :
    ∀ l : List Nat, bgraTransform l = none ↔ (l.length % 4 = 1 ∨ l.length % 4 = 2)
  | [] => by simp [bgraTransform]
  | [_] => by simp [bgraTransform]
  | [_, _] => by simp [bgraTransform]
  | [_, _, _] => by simp [bgraTransform]
  | a :: b :: c :: d :: rest => by
      have ih := bgraTransform_eq_none_iff rest
      simp only [bgraTransform, Option.map_eq_none', ih, List.length_cons]
      omega

/-! ## Claim theorems -/

/-- C5: the pixel-format resolver, given the advertised format list, returns
the id of a format with type direct-color, depth 32, red shift 16, green
shift 8, blue shift 0, alpha shift 24, and every channel mask 0xFF; and it
aborts (the `.expect` panic, modelled as `none`) exactly when no advertised
format satisfies all of these conditions. -/
theorem find_argb32_format_spec (formats : List Pictformat) :
    (∀ i, find_argb32_format formats = some i →
      ∃ f, f ∈ formats ∧ f.id = i ∧
        f.type_ = PictType.direct ∧ f.depth = 32 ∧
        f.direct.red_shift = 16 ∧ f.direct.red_mask = 0xff ∧
        f.direct.green_shift = 8 ∧ f.direct.green_mask = 0xff ∧
        f.direct.blue_shift = 0 ∧ f.direct.blue_mask = 0xff ∧
        f.direct.alpha_shift = 24 ∧ f.direct.alpha_mask = 0xff)
    ∧ (find_argb32_format formats = none ↔
        ∀ f ∈ formats, ¬(f.type_ = PictType.direct ∧ f.depth = 32 ∧
          f.direct.red_shift = 16 ∧ f.direct.red_mask = 0xff ∧
          f.direct.green_shift = 8 ∧ f.direct.green_mask = 0xff ∧
          f.direct.blue_shift = 0 ∧ f.direct.blue_mask = 0xff ∧
          f.direct.alpha_shift = 24 ∧ f.direct.alpha_mask = 0xff)) := by
  constructor
  · intro i h
    unfold find_argb32_format at h
    rcases Option.map_eq_some'.mp h with ⟨f, hf, hid⟩
    exact ⟨f, List.mem_of_find?_eq_some hf, hid,
      (matchesArgb32_iff f).mp (List.find?_some hf)⟩
  · unfold find_argb32_format
    simp only [Option.map_eq_none', List.find?_eq_none, matchesArgb32_iff]

/-- Witness for C5: on a one-element list holding a conforming format, the
resolver returns its id and the id belongs to a conforming format. -/
theorem find_argb32_format_spec_witness :
    ∃ f, f ∈ [argbFmt] ∧ f.id = 5 ∧
      f.type_ = PictType.direct ∧ f.depth = 32 ∧
      f.direct.red_shift = 16 ∧ f.direct.red_mask = 0xff ∧
      f.direct.green_shift = 8 ∧ f.direct.green_mask = 0xff ∧
      f.direct.blue_shift = 0 ∧ f.direct.blue_mask = 0xff ∧
      f.direct.alpha_shift = 24 ∧ f.direct.alpha_mask = 0xff :=
  (find_argb32_format_spec [argbFmt]).1 5 rfl

/-- C6: for a buffer whose bytes are `[R,G,B,A]` repeated per 4-byte pixel,
`CustomCursor::new` uploads `[B,G,R,A]` per pixel to the builder: within
every pixel the first three bytes are reversed and the alpha byte is
untouched, and the builder receives depth 32 and the unchanged
width/height/hotspot. -/
theorem custom_cursor_new_bgra (ps : List (Nat × Nat × Nat × Nat))
    (w h hx hy : Nat) :
    customCursorNew ⟨flattenRGBA ps, w, h, hx, hy⟩ =
      some ⟨w, h, 32, hx, hy, flattenBGRA ps⟩ := by
  simp [customCursorNew, bgraTransform_flatten]

/-- C10: the RGBA→BGRA transform of `CustomCursor::new` is total exactly for
buffers whose length mod 4 is 0 or 3; on a trailing chunk of 1 or 2 bytes
the slice `chunk[0..3]` is out of bounds and `new` panics (`none`) without
ever invoking the builder, so no remote request is issued. -/
theorem custom_cursor_new_totality (c : CursorImage) :
    ((customCursorNew c).isSome = true ↔
      (c.rgba.length % 4 = 0 ∨ c.rgba.length % 4 = 3))
    ∧ (customCursorNew c = none ↔
      (c.rgba.length % 4 = 1 ∨ c.rgba.length % 4 = 2)) := by
  have h := bgraTransform_eq_none_iff c.rgba
  have hlt : c.rgba.length % 4 < 4 := Nat.mod_lt _ (by norm_num)
  constructor
  · cases hb : bgraTransform c.rgba with
    | none =>
        have := h.mp hb
        simp only [customCursorNew, hb, Option.map_none', Option.isSome_none]
        constructor
        · intro hfalse; cases hfalse
        · intro hor; omega
    | some t =>
        have hne : ¬(c.rgba.length % 4 = 1 ∨ c.rgba.length % 4 = 2) := fun hor => by
          rw [h.mpr hor] at hb; cases hb
        simp only [customCursorNew, hb, Option.map_some', Option.isSome_some]
        constructor
        · intro _; omega
        · intro _; trivial
  · simp only [customCursorNew, Option.map_eq_none', h]

/-- Witness for C10: a 2-byte buffer (length mod 4 = 2) makes `new` panic
before any builder call. -/
theorem custom_cursor_new_totality_witness :
    customCursorNew ⟨[0, 0], 1, 1, 0, 0⟩ = none :=
  (custom_cursor_new_totality ⟨[0, 0], 1, 1, 0, 0⟩).2.mpr (by decide)

/-- C8: resolving the absent selector performs no theme lookup — the effect
trace is exactly one builder call, with no `themeLookup` event — and always
invokes the image-backed builder with a 1×1 image, depth 32, the all-zero
4-byte buffer, and hotspot (0,0), whatever the theme-handle, lookup and
builder oracles do. -/
theorem get_cursor_invisible (handleNew : Except Nat Unit)
    (lookup : String → Except Nat Nat) (builder : Except Nat Nat) :
    get_cursor handleNew lookup builder none =
      ([GEv.builderCall ⟨1, 1, 32, 0, 0, [0, 0, 0, 0]⟩], builder) := rfl

/-- C9: `update_cursor` ignores the error reply of the attribute-change
request (the result is the same whatever that reply is), propagates a
failing flush as a hard error, and returns success when the flush
succeeds. -/
theorem update_cursor_spec (attrReply attrReply2 : Option Nat)
    (flushR : Except Nat Unit) (e : Nat) :
    update_cursor (.ok ()) attrReply flushR = update_cursor (.ok ()) attrReply2 flushR
    ∧ (flushR = .error e → update_cursor (.ok ()) attrReply flushR = .error e)
    ∧ update_cursor (.ok ()) attrReply (.ok ()) = .ok () :=
  ⟨rfl, fun h => by rw [h]; rfl, rfl⟩

/-- Witness for C9: with an error reply on the attribute change and a
failing flush, the flush error is the returned error. -/
theorem update_cursor_spec_witness :
    update_cursor (.ok ()) (some 3) (.error 9) = .error 9 :=
  (update_cursor_spec (some 3) none (.error 9) 9).2.1 rfl


/-- One-step unfolding of the lookup loop: the head name succeeds, so it is
the only attempted name and its handle is returned. -/
theorem tryNamesT_ok (lookup : String → Except Nat Nat) (n : String)
    (alts : List String) (c : Nat) (hl : lookup n = .ok c) :
    tryNamesT lookup n alts = ([n], .ok c) := by
  cases alts with
  | nil => rw [tryNamesT.eq_def]; dsimp only; rw [hl]
  | cons n2 rest => rw [tryNamesT.eq_def]; dsimp only; rw [hl]

/-- One-step unfolding of the lookup loop: the only name fails, so the loop
fails with that (last) error. -/
theorem tryNamesT_error_nil (lookup : String → Except Nat Nat) (n : String)
    (e : Nat) (hl : lookup n = .error e) :
    tryNamesT lookup n [] = ([n], .error e) := by
  rw [tryNamesT.eq_def]; dsimp only; rw [hl]

/-- One-step unfolding of the lookup loop: the head name fails and further
names remain, so the loop continues with them, the head error kept only
until a later one replaces it. -/
theorem tryNamesT_error_cons (lookup : String → Except Nat Nat) (n : String)
    (e : Nat) (n2 : String) (rest : List String) (hl : lookup n = .error e) :
    tryNamesT lookup n (n2 :: rest) =
      (n :: (tryNamesT lookup n2 rest).1, (tryNamesT lookup n2 rest).2) := by
  rcases htr : tryNamesT lookup n2 rest with ⟨att, r⟩
  rw [tryNamesT.eq_def]; dsimp only; rw [hl, htr]

/-- Whatever the lookup outcomes, the list of attempted names starts with
the name the loop was entered with. -/
theorem tryNamesT_fst_head (lookup : String → Except Nat Nat) (n : String)
    (alts : List String) : ∃ t, (tryNamesT lookup n alts).1 = n :: t := by
  cases hl : lookup n with
  | ok c => exact ⟨[], by rw [tryNamesT_ok lookup n alts c hl]⟩
  | error e =>
      cases alts with
      | nil => exact ⟨[], by rw [tryNamesT_error_nil lookup n e hl]⟩
      | cons n2 rest =>
          exact ⟨(tryNamesT lookup n2 rest).1,
            by rw [tryNamesT_error_cons lookup n e n2 rest hl]⟩

/-- C7: the name-fallback loop of `get_cursor` attempts the canonical name
then the alternates in order: the attempted names are exactly the failing
names up to and including the first successful one (all names when every
lookup fails), and the result is the lookup of the last attempted name —
the handle of the first successful lookup if one exists, with later names
never attempted, otherwise the last encountered error, earlier errors
discarded. -/
theorem get_cursor_name_fallback (lookup : String → Except Nat Nat)
    (name : String) (alts : List String) :
    (tryNamesT lookup name alts).1 =
        ((name :: alts).takeWhile fun m => !(lookupOk lookup m)) ++
          (((name :: alts).drop
            (((name :: alts).takeWhile fun m => !(lookupOk lookup m)).length)).take 1)
    ∧ (∃ lastn, (tryNamesT lookup name alts).1.getLast? = some lastn ∧
        (tryNamesT lookup name alts).2 = lookup lastn)
    ∧ ((∀ m ∈ name :: alts, lookupOk lookup m = false) →
        (tryNamesT lookup name alts).1 = name :: alts) := by
  induction alts generalizing name with
  | nil =>
      cases hl : lookup name with
      | ok c =>
          have he := tryNamesT_ok lookup name [] c hl
          refine ⟨?_, ⟨name, by rw [he]; simp, by rw [he, hl]⟩, ?_⟩
          · rw [he]; simp [lookupOk, hl, List.takeWhile_cons]
          · intro hall
            have := hall name (by simp)
            simp [lookupOk, hl] at this
      | error e =>
          have he := tryNamesT_error_nil lookup name e hl
          refine ⟨?_, ⟨name, by rw [he]; simp, by rw [he, hl]⟩, fun _ => by rw [he]⟩
          rw [he]; simp [lookupOk, hl, List.takeWhile_cons]
  | cons n2 rest ih =>
      cases hl : lookup name with
      | ok c =>
          have he := tryNamesT_ok lookup name (n2 :: rest) c hl
          refine ⟨?_, ⟨name, by rw [he]; simp, by rw [he, hl]⟩, ?_⟩
          · rw [he]; simp [lookupOk, hl, List.takeWhile_cons]
          · intro hall
            have := hall name (by simp)
            simp [lookupOk, hl] at this
      | error e =>
          obtain ⟨h1, ⟨lastn, hlast, hres⟩, h3⟩ := ih n2
          obtain ⟨t, ht⟩ := tryNamesT_fst_head lookup n2 rest
          have hstep := tryNamesT_error_cons lookup name e n2 rest hl
          refine ⟨?_, ⟨lastn, ?_, ?_⟩, ?_⟩
          · rw [hstep]
            dsimp only
            rw [h1]
            simp [List.takeWhile_cons, lookupOk, hl]
          · rw [hstep]
            dsimp only
            rw [ht]
            rw [ht] at hlast
            rw [List.getLast?_cons_cons]
            exact hlast
          · rw [hstep]
            dsimp only
            exact hres
          · intro hall
            rw [hstep]
            dsimp only
            rw [h3 (fun m hm => hall m (by simp [hm]))]

/-- C1: rollback discipline of the image-backed builder.  (1) Every
intermediate resource (pixmap, gc, picture) that gets allocated is
released before the function returns, in every scenario;  (2) the
rollback — the frees fired by the still-armed guards at the failure
point — releases exactly in reverse order of allocation;  (3) if picture
creation (stage 3) fails, the run errors, the pixmap is released, and the
rollback at the failure point is exactly the pixmap release;  (4) if
cursor creation (stage 4) fails, the run errors and both the pixmap and
the picture are released, the rollback at the failure point being the
picture release (the pixmap was already released when stage 3 completed,
line 72). -/
theorem create_cursor_from_image_rollback (s : Scenario) :
    (∀ r : Res, r ≠ Res.cursor →
        Ev.alloc r ∈ (create_cursor_from_image s).1 →
        Ev.free r ∈ (create_cursor_from_image s).1)
    ∧ rollbackOf (create_cursor_from_image s).1 =
        ((allocsOf (create_cursor_from_image s).1).filter
          fun r => decide (r ∈ rollbackOf (create_cursor_from_image s).1)).reverse
    ∧ (stage3Fails s →
        runFailed s = true ∧
        Ev.free Res.pixmap ∈ (create_cursor_from_image s).1 ∧
        rollbackOf (create_cursor_from_image s).1 = [Res.pixmap])
    ∧ (stage4Fails s →
        runFailed s = true ∧
        Ev.free Res.pixmap ∈ (create_cursor_from_image s).1 ∧
        Ev.free Res.picture ∈ (create_cursor_from_image s).1 ∧
        rollbackOf (create_cursor_from_image s).1 = [Res.picture]) := by
  obtain ⟨f1, f2, f3, f4, f5, f6, f7, f8, f9, f10, f11⟩ := s
  cases f1 with
  | some e =>
      refine ⟨?_, ?_, fun h => ?_, fun h => ?_⟩
      · show ∀ r : Res, r ≠ Res.cursor →
            Ev.alloc r ∈ [Ev.err] →
            Ev.free r ∈ [Ev.err]
        decide
      · show rollbackOf [Ev.err] =
          ((allocsOf [Ev.err]).filter
            fun r => decide (r ∈ rollbackOf [Ev.err])).reverse
        decide
      · exact absurd h (by simp [stage3Fails])
      · exact absurd h (by simp [stage4Fails])
  | none =>
  cases f2 with
  | some e =>
      refine ⟨?_, ?_, fun h => ?_, fun h => ?_⟩
      · show ∀ r : Res, r ≠ Res.cursor →
            Ev.alloc r ∈ [Ev.err] →
            Ev.free r ∈ [Ev.err]
        decide
      · show rollbackOf [Ev.err] =
          ((allocsOf [Ev.err]).filter
            fun r => decide (r ∈ rollbackOf [Ev.err])).reverse
        decide
      · exact absurd h (by simp [stage3Fails])
      · exact absurd h (by simp [stage4Fails])
  | none =>
  cases f3 with
  | some e =>
      refine ⟨?_, ?_, fun h => ?_, fun h => ?_⟩
      · show ∀ r : Res, r ≠ Res.cursor →
            Ev.alloc r ∈ [Ev.alloc Res.pixmap, Ev.err, Ev.free Res.pixmap] →
            Ev.free r ∈ [Ev.alloc Res.pixmap, Ev.err, Ev.free Res.pixmap]
        decide
      · show rollbackOf [Ev.alloc Res.pixmap, Ev.err, Ev.free Res.pixmap] =
          ((allocsOf [Ev.alloc Res.pixmap, Ev.err, Ev.free Res.pixmap]).filter
            fun r => decide (r ∈ rollbackOf [Ev.alloc Res.pixmap, Ev.err, Ev.free Res.pixmap])).reverse
        decide
      · exact absurd h (by simp [stage3Fails])
      · exact absurd h (by simp [stage4Fails])
  | none =>
  cases f4 with
  | some e =>
      refine ⟨?_, ?_, fun h => ?_, fun h => ?_⟩
      · show ∀ r : Res, r ≠ Res.cursor →
            Ev.alloc r ∈ [Ev.alloc Res.pixmap, Ev.err, Ev.free Res.pixmap] →
            Ev.free r ∈ [Ev.alloc Res.pixmap, Ev.err, Ev.free Res.pixmap]
        decide
      · show rollbackOf [Ev.alloc Res.pixmap, Ev.err, Ev.free Res.pixmap] =
          ((allocsOf [Ev.alloc Res.pixmap, Ev.err, Ev.free Res.pixmap]).filter
            fun r => decide (r ∈ rollbackOf [Ev.alloc Res.pixmap, Ev.err, Ev.free Res.pixmap])).reverse
        decide
      · exact absurd h (by simp [stage3Fails])
      · exact absurd h (by simp [stage4Fails])
  | none =>
  cases f5 with
  | some e =>
      refine ⟨?_, ?_, fun h => ?_, fun h => ?_⟩
      · show ∀ r : Res, r ≠ Res.cursor →
            Ev.alloc r ∈ [Ev.alloc Res.pixmap, Ev.alloc Res.gc, Ev.err, Ev.free Res.gc, Ev.free Res.pixmap] →
            Ev.free r ∈ [Ev.alloc Res.pixmap, Ev.alloc Res.gc, Ev.err, Ev.free Res.gc, Ev.free Res.pixmap]
        decide
      · show rollbackOf [Ev.alloc Res.pixmap, Ev.alloc Res.gc, Ev.err, Ev.free Res.gc, Ev.free Res.pixmap] =
          ((allocsOf [Ev.alloc Res.pixmap, Ev.alloc Res.gc, Ev.err, Ev.free Res.gc, Ev.free Res.pixmap]).filter
            fun r => decide (r ∈ rollbackOf [Ev.alloc Res.pixmap, Ev.alloc Res.gc, Ev.err, Ev.free Res.gc, Ev.free Res.pixmap])).reverse
        decide
      · exact absurd h (by simp [stage3Fails])
      · exact absurd h (by simp [stage4Fails])
  | none =>
  cases f6 with
  | some e =>
      refine ⟨?_, ?_, fun h => ?_, fun h => ?_⟩
      · show ∀ r : Res, r ≠ Res.cursor →
            Ev.alloc r ∈ [Ev.alloc Res.pixmap, Ev.alloc Res.gc, Ev.free Res.gc, Ev.err, Ev.free Res.pixmap] →
            Ev.free r ∈ [Ev.alloc Res.pixmap, Ev.alloc Res.gc, Ev.free Res.gc, Ev.err, Ev.free Res.pixmap]
        decide
      · show rollbackOf [Ev.alloc Res.pixmap, Ev.alloc Res.gc, Ev.free Res.gc, Ev.err, Ev.free Res.pixmap] =
          ((allocsOf [Ev.alloc Res.pixmap, Ev.alloc Res.gc, Ev.free Res.gc, Ev.err, Ev.free Res.pixmap]).filter
            fun r => decide (r ∈ rollbackOf [Ev.alloc Res.pixmap, Ev.alloc Res.gc, Ev.free Res.gc, Ev.err, Ev.free Res.pixmap])).reverse
        decide
      · exact absurd h (by simp [stage3Fails])
      · exact absurd h (by simp [stage4Fails])
  | none =>
  cases f7 with
  | some e =>
      refine ⟨?_, ?_, fun h => ?_, fun h => ?_⟩
      · show ∀ r : Res, r ≠ Res.cursor →
            Ev.alloc r ∈ [Ev.alloc Res.pixmap, Ev.alloc Res.gc, Ev.free Res.gc, Ev.err, Ev.free Res.pixmap] →
            Ev.free r ∈ [Ev.alloc Res.pixmap, Ev.alloc Res.gc, Ev.free Res.gc, Ev.err, Ev.free Res.pixmap]
        decide
      · show rollbackOf [Ev.alloc Res.pixmap, Ev.alloc Res.gc, Ev.free Res.gc, Ev.err, Ev.free Res.pixmap] =
          ((allocsOf [Ev.alloc Res.pixmap, Ev.alloc Res.gc, Ev.free Res.gc, Ev.err, Ev.free Res.pixmap]).filter
            fun r => decide (r ∈ rollbackOf [Ev.alloc Res.pixmap, Ev.alloc Res.gc, Ev.free Res.gc, Ev.err, Ev.free Res.pixmap])).reverse
        decide
      · exact absurd h (by simp [stage3Fails])
      · exact absurd h (by simp [stage4Fails])
  | none =>
  cases f8 with
  | some e =>
      refine ⟨?_, ?_, fun h => ?_, fun h => ?_⟩
      · show ∀ r : Res, r ≠ Res.cursor →
            Ev.alloc r ∈ [Ev.alloc Res.pixmap, Ev.alloc Res.gc, Ev.free Res.gc, Ev.err, Ev.free Res.pixmap] →
            Ev.free r ∈ [Ev.alloc Res.pixmap, Ev.alloc Res.gc, Ev.free Res.gc, Ev.err, Ev.free Res.pixmap]
        decide
      · show rollbackOf [Ev.alloc Res.pixmap, Ev.alloc Res.gc, Ev.free Res.gc, Ev.err, Ev.free Res.pixmap] =
          ((allocsOf [Ev.alloc Res.pixmap, Ev.alloc Res.gc, Ev.free Res.gc, Ev.err, Ev.free Res.pixmap]).filter
            fun r => decide (r ∈ rollbackOf [Ev.alloc Res.pixmap, Ev.alloc Res.gc, Ev.free Res.gc, Ev.err, Ev.free Res.pixmap])).reverse
        decide
      · refine ⟨rfl, ?_, ?_⟩
        · show Ev.free Res.pixmap ∈ [Ev.alloc Res.pixmap, Ev.alloc Res.gc, Ev.free Res.gc, Ev.err, Ev.free Res.pixmap]
          decide
        · show rollbackOf [Ev.alloc Res.pixmap, Ev.alloc Res.gc, Ev.free Res.gc, Ev.err, Ev.free Res.pixmap] = [Res.pixmap]
          decide
      · exact absurd h (by simp [stage4Fails])
  | none =>
  cases f9 with
  | some e =>
      refine ⟨?_, ?_, fun h => ?_, fun h => ?_⟩
      · show ∀ r : Res, r ≠ Res.cursor →
            Ev.alloc r ∈ [Ev.alloc Res.pixmap, Ev.alloc Res.gc, Ev.free Res.gc, Ev.alloc Res.picture,
          Ev.free Res.pixmap, Ev.err, Ev.free Res.picture] →
            Ev.free r ∈ [Ev.alloc Res.pixmap, Ev.alloc Res.gc, Ev.free Res.gc, Ev.alloc Res.picture,
          Ev.free Res.pixmap, Ev.err, Ev.free Res.picture]
        decide
      · show rollbackOf [Ev.alloc Res.pixmap, Ev.alloc Res.gc, Ev.free Res.gc, Ev.alloc Res.picture,
          Ev.free Res.pixmap, Ev.err, Ev.free Res.picture] =
          ((allocsOf [Ev.alloc Res.pixmap, Ev.alloc Res.gc, Ev.free Res.gc, Ev.alloc Res.picture,
          Ev.free Res.pixmap, Ev.err, Ev.free Res.picture]).filter
            fun r => decide (r ∈ rollbackOf [Ev.alloc Res.pixmap, Ev.alloc Res.gc, Ev.free Res.gc, Ev.alloc Res.picture,
          Ev.free Res.pixmap, Ev.err, Ev.free Res.picture])).reverse
        decide
      · exact absurd h (by simp [stage3Fails])
      · exact absurd h (by simp [stage4Fails])
  | none =>
  cases f10 with
  | some e =>
      refine ⟨?_, ?_, fun h => ?_, fun h => ?_⟩
      · show ∀ r : Res, r ≠ Res.cursor →
            Ev.alloc r ∈ [Ev.alloc Res.pixmap, Ev.alloc Res.gc, Ev.free Res.gc, Ev.alloc Res.picture,
          Ev.free Res.pixmap, Ev.err, Ev.free Res.picture] →
            Ev.free r ∈ [Ev.alloc Res.pixmap, Ev.alloc Res.gc, Ev.free Res.gc, Ev.alloc Res.picture,
          Ev.free Res.pixmap, Ev.err, Ev.free Res.picture]
        decide
      · show rollbackOf [Ev.alloc Res.pixmap, Ev.alloc Res.gc, Ev.free Res.gc, Ev.alloc Res.picture,
          Ev.free Res.pixmap, Ev.err, Ev.free Res.picture] =
          ((allocsOf [Ev.alloc Res.pixmap, Ev.alloc Res.gc, Ev.free Res.gc, Ev.alloc Res.picture,
          Ev.free Res.pixmap, Ev.err, Ev.free Res.picture]).filter
            fun r => decide (r ∈ rollbackOf [Ev.alloc Res.pixmap, Ev.alloc Res.gc, Ev.free Res.gc, Ev.alloc Res.picture,
          Ev.free Res.pixmap, Ev.err, Ev.free Res.picture])).reverse
        decide
      · exact absurd h (by simp [stage3Fails])
      · exact absurd h (by simp [stage4Fails])
  | none =>
  cases f11 with
  | some e =>
      refine ⟨?_, ?_, fun h => ?_, fun h => ?_⟩
      · show ∀ r : Res, r ≠ Res.cursor →
            Ev.alloc r ∈ [Ev.alloc Res.pixmap, Ev.alloc Res.gc, Ev.free Res.gc, Ev.alloc Res.picture,
          Ev.free Res.pixmap, Ev.err, Ev.free Res.picture] →
            Ev.free r ∈ [Ev.alloc Res.pixmap, Ev.alloc Res.gc, Ev.free Res.gc, Ev.alloc Res.picture,
          Ev.free Res.pixmap, Ev.err, Ev.free Res.picture]
        decide
      · show rollbackOf [Ev.alloc Res.pixmap, Ev.alloc Res.gc, Ev.free Res.gc, Ev.alloc Res.picture,
          Ev.free Res.pixmap, Ev.err, Ev.free Res.picture] =
          ((allocsOf [Ev.alloc Res.pixmap, Ev.alloc Res.gc, Ev.free Res.gc, Ev.alloc Res.picture,
          Ev.free Res.pixmap, Ev.err, Ev.free Res.picture]).filter
            fun r => decide (r ∈ rollbackOf [Ev.alloc Res.pixmap, Ev.alloc Res.gc, Ev.free Res.gc, Ev.alloc Res.picture,
          Ev.free Res.pixmap, Ev.err, Ev.free Res.picture])).reverse
        decide
      · exact absurd h (by simp [stage3Fails])
      · refine ⟨rfl, ?_, ?_, ?_⟩
        · show Ev.free Res.pixmap ∈ [Ev.alloc Res.pixmap, Ev.alloc Res.gc, Ev.free Res.gc, Ev.alloc Res.picture,
          Ev.free Res.pixmap, Ev.err, Ev.free Res.picture]
          decide
        · show Ev.free Res.picture ∈ [Ev.alloc Res.pixmap, Ev.alloc Res.gc, Ev.free Res.gc, Ev.alloc Res.picture,
          Ev.free Res.pixmap, Ev.err, Ev.free Res.picture]
          decide
        · show rollbackOf [Ev.alloc Res.pixmap, Ev.alloc Res.gc, Ev.free Res.gc, Ev.alloc Res.picture,
          Ev.free Res.pixmap, Ev.err, Ev.free Res.picture] = [Res.picture]
          decide
  | none =>
      refine ⟨?_, ?_, fun h => ?_, fun h => ?_⟩
      · show ∀ r : Res, r ≠ Res.cursor →
            Ev.alloc r ∈ [Ev.alloc Res.pixmap, Ev.alloc Res.gc, Ev.free Res.gc, Ev.alloc Res.picture,
          Ev.free Res.pixmap, Ev.alloc Res.cursor, Ev.free Res.picture] →
            Ev.free r ∈ [Ev.alloc Res.pixmap, Ev.alloc Res.gc, Ev.free Res.gc, Ev.alloc Res.picture,
          Ev.free Res.pixmap, Ev.alloc Res.cursor, Ev.free Res.picture]
        decide
      · show rollbackOf [Ev.alloc Res.pixmap, Ev.alloc Res.gc, Ev.free Res.gc, Ev.alloc Res.picture,
          Ev.free Res.pixmap, Ev.alloc Res.cursor, Ev.free Res.picture] =
          ((allocsOf [Ev.alloc Res.pixmap, Ev.alloc Res.gc, Ev.free Res.gc, Ev.alloc Res.picture,
          Ev.free Res.pixmap, Ev.alloc Res.cursor, Ev.free Res.picture]).filter
            fun r => decide (r ∈ rollbackOf [Ev.alloc Res.pixmap, Ev.alloc Res.gc, Ev.free Res.gc, Ev.alloc Res.picture,
          Ev.free Res.pixmap, Ev.alloc Res.cursor, Ev.free Res.picture])).reverse
        decide
      · exact absurd h (by simp [stage3Fails])
      · exact absurd h (by simp [stage4Fails])

/-- Witness for C1: in the scenario where only the picture-reply check
fails, the run errors, the pixmap gets released and is the whole rollback;
in the scenario where only the cursor-reply check fails, the run errors
and both pixmap and picture get released. -/
theorem create_cursor_from_image_rollback_witness :
    (runFailed stage3Scenario = true ∧
      Ev.free Res.pixmap ∈ (create_cursor_from_image stage3Scenario).1 ∧
      rollbackOf (create_cursor_from_image stage3Scenario).1 = [Res.pixmap])
    ∧ (runFailed stage4Scenario = true ∧
      Ev.free Res.pixmap ∈ (create_cursor_from_image stage4Scenario).1 ∧
      Ev.free Res.picture ∈ (create_cursor_from_image stage4Scenario).1 ∧
      rollbackOf (create_cursor_from_image stage4Scenario).1 = [Res.picture]) :=
  ⟨(create_cursor_from_image_rollback stage3Scenario).2.2.1
    ⟨rfl, rfl, rfl, rfl, rfl, rfl, rfl, rfl⟩,
   (create_cursor_from_image_rollback stage4Scenario).2.2.2
    ⟨rfl, rfl, rfl, rfl, rfl, rfl, rfl, rfl, rfl, rfl, rfl⟩⟩

/-- A history that is well-formed from zero live references is over: no
clone or drop can act on a dead handle. -/
theorem validFrom_zero (ops : List ArcOp) (h : validFrom 0 ops = true) :
    ops = [] := by
  cases ops with
  | nil => rfl
  | cons op rest => cases op <;> simp [validFrom] at h

/-- The run is oblivious to the outcomes of the `free_cursor` requests:
`CustomCursorInner::drop` discards them
(`.map(|r| r.ignore_error()).ok();`), so no failure surfaces into the
state. -/
theorem arcRun_indep (fr fr' : Nat → Except Nat Unit) :
    ∀ (ops : List ArcOp) (st : ArcSt), arcRun fr st ops = arcRun fr' st ops := by
  intro ops
  induction ops with
  | nil => intro st; rfl
  | cons op rest ih =>
      intro st
      have hstep : arcStep fr st op = arcStep fr' st op := by cases op <;> rfl
      show arcRun fr (arcStep fr st op) rest = arcRun fr' (arcStep fr' st op) rest
      rw [hstep]
      exact ih _

/-- Invariant: along any well-formed history starting from `live ≥ 1`
references and no free issued yet, the number of issued `free_cursor`
requests is 1 exactly when the reference count has reached zero, else 0. -/
theorem arcRun_frees_inv (fr : Nat → Except Nat Unit) :
    ∀ (ops : List ArcOp) (live : Nat), 1 ≤ live → validFrom live ops = true →
      (arcRun fr ⟨live, 0⟩ ops).frees =
        if (arcRun fr ⟨live, 0⟩ ops).refs = 0 then 1 else 0 := by
  intro ops
  induction ops with
  | nil =>
      intro live h1 _
      show (0 : Nat) = if live = 0 then 1 else 0
      rw [if_neg (by omega)]
  | cons op rest ih =>
      intro live h1 h2
      cases op with
      | clone =>
          simp only [validFrom, Bool.and_eq_true, decide_eq_true_eq] at h2
          show (arcRun fr (arcStep fr ⟨live, 0⟩ .clone) rest).frees = _
          have hstep : arcStep fr ⟨live, 0⟩ .clone = ⟨live + 1, 0⟩ := rfl
          rw [hstep]
          exact ih (live + 1) (by omega) h2.2
      | drop =>
          simp only [validFrom, Bool.and_eq_true, decide_eq_true_eq] at h2
          by_cases hl1 : live = 1
          · subst hl1
            have hrest : rest = [] := validFrom_zero rest (by simpa using h2.2)
            subst hrest
            rfl
          · have hstep : arcStep fr ⟨live, 0⟩ .drop = ⟨live - 1, 0⟩ := by
              simp [arcStep, hl1]
            show (arcRun fr (arcStep fr ⟨live, 0⟩ .drop) rest).frees =
              if (arcRun fr (arcStep fr ⟨live, 0⟩ .drop) rest).refs = 0 then 1 else 0
            rw [hstep]
            exact ih (live - 1) (by omega) h2.2

/-- Well-formedness is preserved by truncating the history. -/
theorem validFrom_take :
    ∀ (ops : List ArcOp) (live n : Nat), validFrom live ops = true →
      validFrom live (ops.take n) = true
  | [], _, _ => by simp
  | _ :: _, _, 0 => by intro _; rfl
  | op :: rest, live, n + 1 => by
      intro h
      cases op with
      | clone =>
          simp only [List.take_succ_cons, validFrom, Bool.and_eq_true] at h ⊢
          exact ⟨h.1, validFrom_take rest _ n h.2⟩
      | drop =>
          simp only [List.take_succ_cons, validFrom, Bool.and_eq_true] at h ⊢
          exact ⟨h.1, validFrom_take rest _ n h.2⟩

/-- C2: along every well-formed history of a `CustomCursor` (created with
one reference, then any interleaving of clones and drops of live
references), exactly one `free_cursor` request is issued when and only
when the reference count reaches zero — at every intermediate point the
count of issued requests is 0 while a reference is still live and 1 once
the last was dropped — and the resulting state is independent of the
outcome of the free request: a failure of the release is swallowed, never
surfaced. -/
theorem custom_cursor_single_release (fr fr' : Nat → Except Nat Unit)
    (ops : List ArcOp) (hv : validFrom 1 ops = true) :
    (arcRun fr ⟨1, 0⟩ ops).frees =
        (if (arcRun fr ⟨1, 0⟩ ops).refs = 0 then 1 else 0)
    ∧ arcRun fr ⟨1, 0⟩ ops = arcRun fr' ⟨1, 0⟩ ops
    ∧ ∀ n, (arcRun fr ⟨1, 0⟩ (ops.take n)).frees =
        (if (arcRun fr ⟨1, 0⟩ (ops.take n)).refs = 0 then 1 else 0) :=
  ⟨arcRun_frees_inv fr ops 1 le_rfl hv,
   arcRun_indep fr fr' ops ⟨1, 0⟩,
   fun n => arcRun_frees_inv fr (ops.take n) 1 le_rfl (validFrom_take ops 1 n hv)⟩

/-- Witness for C2: construct, clone twice, drop all three — with a
succeeding free oracle the hypothesis holds and exactly-one-free follows
via the theorem. -/
theorem custom_cursor_single_release_witness :
    (arcRun (fun _ => Except.ok ()) ⟨1, 0⟩ exampleOps).frees =
      (if (arcRun (fun _ => Except.ok ()) ⟨1, 0⟩ exampleOps).refs = 0
        then 1 else 0) :=
  (custom_cursor_single_release (fun _ => Except.ok ())
    (fun _ => Except.error 0) exampleOps (by decide)).1

/-- Inserting a binding for a selector makes later lookups of that
selector hit it. -/
theorem lookupSel_insert_same {Icon : Type} [DecidableEq Icon]
    (cache : List (Option Icon × Nat)) (sel : Option Icon) (c : Nat) :
    lookupSel ((sel, c) :: cache) sel = some c := by
  simp [lookupSel]

/-- Inserting a binding for a different selector leaves lookups
unchanged. -/
theorem lookupSel_insert_other {Icon : Type} [DecidableEq Icon]
    (cache : List (Option Icon × Nat)) (k sel : Option Icon) (c : Nat)
    (h : k ≠ sel) :
    lookupSel ((k, c) :: cache) sel = lookupSel cache sel := by
  simp [lookupSel, h]

/-- A selector already present in the cache is never built again over the
rest of the cache's lifetime. -/
theorem resolveSeq_cached {Icon : Type} [DecidableEq Icon]
    (getC : Option Icon → Except Nat Nat) :
    ∀ (sels : List (Option Icon)) (cache : List (Option Icon × Nat))
      (sel : Option Icon) (c : Nat),
      lookupSel cache sel = some c → sel ∉ resolveSeq getC cache sels := by
  intro sels
  induction sels with
  | nil => intro cache sel c hc; simp [resolveSeq]
  | cons s rest ih =>
      intro cache sel c hc
      by_cases hs : s = sel
      · subst hs
        simp only [resolveSeq, set_cursor_icon_resolve, hc]
        exact ih cache s c hc
      · cases hcs : lookupSel cache s with
        | some c2 =>
            simp only [resolveSeq, set_cursor_icon_resolve, hcs]
            exact ih cache sel c hc
        | none =>
            cases hg : getC s with
            | ok c2 =>
                simp only [resolveSeq, set_cursor_icon_resolve, hcs, hg]
                intro hmem
                rcases List.mem_cons.mp hmem with heq | hmem2
                · exact hs heq.symm
                · exact ih ((s, c2) :: cache) sel c
                    (by rw [lookupSel_insert_other cache s sel c2 hs]; exact hc) hmem2
            | error e =>
                simp only [resolveSeq, set_cursor_icon_resolve, hcs, hg]
                intro hmem
                rcases List.mem_cons.mp hmem with heq | hmem2
                · exact hs heq.symm
                · simp at hmem2

/-- Any selector is built at most once over a cache lifetime, whatever the
starting cache and request sequence. -/
theorem resolveSeq_count {Icon : Type} [DecidableEq Icon]
    (getC : Option Icon → Except Nat Nat) :
    ∀ (sels : List (Option Icon)) (cache : List (Option Icon × Nat))
      (sel : Option Icon),
      List.count sel (resolveSeq getC cache sels) ≤ 1 := by
  intro sels
  induction sels with
  | nil => intro cache sel; simp [resolveSeq]
  | cons s rest ih =>
      intro cache sel
      cases hcs : lookupSel cache s with
      | some c =>
          simp only [resolveSeq, set_cursor_icon_resolve, hcs]
          exact ih cache sel
      | none =>
          cases hg : getC s with
          | ok c =>
              simp only [resolveSeq, set_cursor_icon_resolve, hcs, hg]
              by_cases hs : sel = s
              · subst hs
                have hnot : sel ∉ resolveSeq getC ((sel, c) :: cache) rest :=
                  resolveSeq_cached getC rest ((sel, c) :: cache) sel c
                    (lookupSel_insert_same cache sel c)
                rw [List.count_cons_self, List.count_eq_zero.mpr hnot]
              · rw [List.count_cons_of_ne hs]
                exact ih ((s, c) :: cache) sel
          | error e =>
              simp only [resolveSeq, set_cursor_icon_resolve, hcs, hg]
              exact le_trans (List.count_le_length sel [s]) (by simp)

/-- C3: cache idempotence.  For every selector (including the absent
selector): if resolving through the cache yields a handle, resolving again
through the resulting cache yields the identical handle without invoking
`get_cursor` (invoked-flag `false` and unchanged cache); and over any
request sequence served by one cache, `get_cursor` runs at most once for
the selector. -/
theorem set_cursor_icon_idempotent {Icon : Type} [DecidableEq Icon]
    (getC : Option Icon → Except Nat Nat)
    (cache : List (Option Icon × Nat)) (sel : Option Icon) :
    (∀ c b, (set_cursor_icon_resolve getC cache sel).2 = .ok (c, b) →
      set_cursor_icon_resolve getC (set_cursor_icon_resolve getC cache sel).1 sel =
        ((set_cursor_icon_resolve getC cache sel).1, .ok (c, false)))
    ∧ ∀ sels : List (Option Icon),
        List.count sel (resolveSeq getC cache sels) ≤ 1 := by
  constructor
  · intro c b h
    cases hc : lookupSel cache sel with
    | some c0 =>
        simp [set_cursor_icon_resolve, hc] at h
        obtain ⟨h1, h2⟩ := h
        subst h1
        simp [set_cursor_icon_resolve, hc]
    | none =>
        cases hg : getC sel with
        | ok c1 =>
            simp [set_cursor_icon_resolve, hc, hg] at h
            obtain ⟨h1, h2⟩ := h
            subst h1
            simp [set_cursor_icon_resolve, hc, hg, lookupSel]
        | error e =>
            simp [set_cursor_icon_resolve, hc, hg] at h
  · intro sels
    exact resolveSeq_count getC sels cache sel

/-- Witness for C3: a cache that has just resolved the absent selector
resolves it again to the same handle without invoking the builder. -/
theorem set_cursor_icon_idempotent_witness :
    set_cursor_icon_resolve (fun _ : Option Nat => Except.ok 7)
        (set_cursor_icon_resolve (fun _ : Option Nat => Except.ok 7) [] none).1 none =
      ((set_cursor_icon_resolve (fun _ : Option Nat => Except.ok 7) [] none).1,
        Except.ok (7, false)) :=
  (set_cursor_icon_idempotent (fun _ : Option Nat => Except.ok 7) [] none).1 7 true rfl

/-- C4: a failed resolution is never memoized.  If the selector misses the
cache and `get_cursor` fails, the resolution is fatal (the `expect` panic,
modelled as the error) and the cache is returned unchanged; a subsequent
resolution of the same selector on that unchanged cache invokes the build
again (invoked-flag `true`). -/
theorem resolve_failure_not_memoized {Icon : Type} [DecidableEq Icon]
    (getC getC2 : Option Icon → Except Nat Nat)
    (cache : List (Option Icon × Nat)) (sel : Option Icon) (e c : Nat)
    (hmiss : lookupSel cache sel = none) (hfail : getC sel = .error e) :
    set_cursor_icon_resolve getC cache sel = (cache, .error e)
    ∧ (getC2 sel = .ok c →
      set_cursor_icon_resolve getC2 cache sel = ((sel, c) :: cache, .ok (c, true))) := by
  constructor
  · simp [set_cursor_icon_resolve, hmiss, hfail]
  · intro h
    simp [set_cursor_icon_resolve, hmiss, h]

/-- Witness for C4: after a failed build of selector `some 0` on the empty
cache (unchanged by the failure), a retry whose build succeeds inserts and
returns the new handle, with the builder invoked. -/
theorem resolve_failure_not_memoized_witness :
    set_cursor_icon_resolve (fun _ : Option Nat => Except.ok 9) [] (some 0) =
      ([(some 0, 9)], Except.ok (9, true)) :=
  (resolve_failure_not_memoized (fun _ : Option Nat => Except.error 3)
    (fun _ : Option Nat => Except.ok 9) [] (some 0) 3 9 rfl rfl).2 rfl

/-- Witness for C7: under a theme where every lookup fails, the resolver
for canonical name "hand" with alternates ["pointer", "default"] attempts
exactly all three names in order. -/
theorem get_cursor_name_fallback_witness :
    (tryNamesT allFailLookup "hand" ["pointer", "default"]).1 =
      "hand" :: ["pointer", "default"] :=
  (get_cursor_name_fallback allFailLookup "hand" ["pointer", "default"]).2.2
    (fun _ _ => rfl)
